import Mathlib

/-!
Verification of the Pennywise finance frontend: the HTTP client core
(src/frontend/src/services/apiService.ts), the mutation pipelines of the
Transactions, Budgets and Settings pages, and the query-cache call sites.
JavaScript objects (headers, query params, localStorage) are modelled as
association lists with JS object-assignment semantics; the axios request and
response interceptors are modelled as pure functions over that state.
-/

namespace Pennywise

/-- A JavaScript object with string values: ordered association list of
key-value pairs, unique keys maintained by `setKey`. Also used for the
browser localStorage. -/
abbrev Obj := List (String × String)

/-- Property lookup: first binding for the key, as JS objects and
localStorage getItem return the stored value or null/undefined. -/
def objGet : Obj → String → Option String
  | [], _ => none
  | p :: rest, k => if p.1 = k then some p.2 else objGet rest k

/-- Property assignment (o[k] = v): overwrite the binding in place when the
key exists, append it otherwise. -/
def setKey : Obj → String → String → Obj
  | [], k, v => [(k, v)]
  | p :: rest, k, v => if p.1 = k then (k, v) :: rest else p :: setKey rest k v

/-- localStorage.removeItem: drop every binding for the key. -/
def removeKey : Obj → String → Obj
  | [], _ => []
  | p :: rest, k => if p.1 = k then removeKey rest k else p :: removeKey rest k

/-- JS spread into an object literal whose earlier properties are `base`:
each property of `extra` is assigned in order, overriding `base`. -/
def spreadAfter (base : Obj) (extra : Obj) : Obj :=
  extra.foldl (fun acc p => setKey acc p.1 p.2) base

/-! HTTP client core (src/frontend/src/services/apiService.ts). -/

/-- HTTP methods used by ApiService. -/
inductive Method
  | get
  | post
  | patch
  | delete

deriving instance DecidableEq for Method

/-- Axios response decoding mode: default text/JSON decoding, or the
explicit binary mode requested by responseType blob. -/
inductive ResponseType
  | json
  | blob

deriving instance DecidableEq for ResponseType

/-- Request body shape: no body, a JSON object body, or a FormData body. -/
inductive Body
  | empty
  | jsonObj (fields : Obj)
  | formData (fields : Obj)

deriving instance DecidableEq for Body

/-- An outgoing request as assembled by an ApiService method: the axios call
arguments before interceptors run. `extraHeaders` are per-request headers
that override the instance defaults. -/
structure RequestDescriptor where
  method : Method
  url : String
  params : Obj
  body : Body
  extraHeaders : Obj
  responseType : ResponseType

deriving instance DecidableEq for RequestDescriptor

/-- Default headers passed to axios.create in the ApiService constructor. -/
def axiosCreateHeaders : Obj := [("Content-Type", "application/json")]

/-- Per-request headers merged over the instance defaults (axios config
merge: request-level headers override instance-level ones). -/
def effectiveHeaders (d : RequestDescriptor) : Obj :=
  spreadAfter axiosCreateHeaders d.extraHeaders

/-- ApiService.getCurrentUser: GET /users/me/. -/
def getCurrentUser : RequestDescriptor :=
  ⟨Method.get, "/users/me/", [], Body.empty, [], ResponseType.json⟩

/-- ApiService.getBudgetStatus: GET /budgets/status/ with caller params. -/
def getBudgetStatus (params : Obj) : RequestDescriptor :=
  ⟨Method.get, "/budgets/status/", params, Body.empty, [], ResponseType.json⟩

/-- ApiService.importTransactionsCSV: POST /transactions/import_csv/ with a
FormData body holding the file and an explicit multipart Content-Type
header overriding the default JSON one. -/
def importTransactionsCSV (file : String) : RequestDescriptor :=
  ⟨Method.post, "/transactions/import_csv/", [], Body.formData [("file", file)],
    [("Content-Type", "multipart/form-data")], ResponseType.json⟩

/-- ApiService.downloadChart: GET /charts/download/ with params built by the
object literal spreading the caller params after the explicit type
property, and responseType blob. -/
def downloadChart (t : String) (params : Obj) : RequestDescriptor :=
  ⟨Method.get, "/charts/download/", spreadAfter [("type", t)] params,
    Body.empty, [], ResponseType.blob⟩

/-- The axios request config seen by the request interceptor. -/
structure AxiosConfig where
  url : String
  headers : Obj

deriving instance DecidableEq for AxiosConfig

/-- An HTTP response as seen through an axios error object: its status and
the optional string under the error field of its JSON body
(error.response.data.error). -/
structure HttpResponse where
  status : Nat
  dataError : Option String

deriving instance DecidableEq for HttpResponse

/-- An axios rejection value: `response` is absent for network failures
where no response was received. -/
structure AxiosError where
  response : Option HttpResponse

deriving instance DecidableEq for AxiosError

/-- Browser-global state touched by the interceptors: localStorage and
window.location.href. -/
structure BrowserState where
  storage : Obj
  location : String

deriving instance DecidableEq for BrowserState

/-- The request interceptor: reads localStorage token and, when the JS
truthiness test `if (token)` passes (token neither absent nor the empty
string), assigns config.headers.Authorization = Token <token>. -/
def requestInterceptor (storage : Obj) (cfg : AxiosConfig) : AxiosConfig :=
  match objGet storage "token" with
  | some token =>
      if token = "" then cfg
      else { cfg with headers := setKey cfg.headers "Authorization" ("Token " ++ token) }
  | none => cfg

/-- The response interceptor error handler: on error.response.status 401 it
removes the token and user localStorage entries and sets
window.location.href to /login; in every case it re-rejects with the
original error (Promise.reject(error)). -/
def respErrorHandler (e : AxiosError) (st : BrowserState) : BrowserState × AxiosError :=
  match e.response with
  | some r =>
      if r.status = 401 then
        (⟨removeKey (removeKey st.storage "token") "user", "/login"⟩, e)
      else (st, e)
  | none => (st, e)

/-- Observable outcome of one ApiService call: final browser state, the
settled promise, and the number of network attempts made. -/
structure SendOutcome where
  state : BrowserState
  result : Except AxiosError HttpResponse
  attempts : Nat

/-- One ApiService call through the axios instance: the request interceptor
decorates the config, the network is consulted exactly once, and a
rejection is routed through the response interceptor error handler. The
success handler is the identity (response) => response. -/
def send (net : AxiosConfig → Except AxiosError HttpResponse)
    (cfg : AxiosConfig) (st : BrowserState) : SendOutcome :=
  match net (requestInterceptor st.storage cfg) with
  | Except.ok r => ⟨st, Except.ok r, 1⟩
  | Except.error e =>
      let p := respErrorHandler e st
      ⟨p.1, Except.error p.2, 1⟩

/-! Mutation pipeline: the useMutation onSuccess and onError handlers of the
Transactions page (Transactions.tsx), the Budgets page and the Settings
page, recorded as the ordered list of side effects each handler performs. -/

/-- A toast message: either t(key) through the i18n translation table, or a
string literal from the source. -/
inductive Msg
  | translated (key : String)
  | literal (s : String)

deriving instance DecidableEq for Msg

/-- One side effect performed by a mutation handler, in source order:
queryClient.invalidateQueries(key), toast.success, toast.error, or a
page-local UI update (setState or form reset). -/
inductive Effect
  | invalidate (key : String)
  | toastSuccess (msg : Msg)
  | toastError (msg : Msg)
  | ui (action : String)

deriving instance DecidableEq for Effect

/-- The optional server message read by the onError handlers:
error.response.data.error. -/
def serverMessage (e : AxiosError) : Option String :=
  e.response.bind HttpResponse.dataError

/-- The JS expression msg || fallback used to pick the toast text: the
fallback is used when the server message is absent or the empty string
(JS truthiness). -/
def jsOrMsg (x : Option String) (fallback : Msg) : Msg :=
  match x with
  | some s => if s = "" then fallback else Msg.literal s
  | none => fallback

/-- createTransactionMutation onSuccess (Transactions.tsx). -/
def createTransactionOnSuccess : List Effect :=
  [Effect.invalidate "transactions",
   Effect.toastSuccess (Msg.translated "transactions.transactionAdded"),
   Effect.ui "setShowAddForm(false)", Effect.ui "reset()"]

/-- createTransactionMutation onError (Transactions.tsx). -/
def createTransactionOnError (e : AxiosError) : List Effect :=
  [Effect.toastError (jsOrMsg (serverMessage e) (Msg.literal "Failed to create transaction"))]

/-- updateTransactionMutation onSuccess (Transactions.tsx). -/
def updateTransactionOnSuccess : List Effect :=
  [Effect.invalidate "transactions",
   Effect.toastSuccess (Msg.translated "transactions.transactionUpdated"),
   Effect.ui "setEditingTransaction(null)", Effect.ui "reset()"]

/-- updateTransactionMutation onError (Transactions.tsx). -/
def updateTransactionOnError (e : AxiosError) : List Effect :=
  [Effect.toastError (jsOrMsg (serverMessage e) (Msg.literal "Failed to update transaction"))]

/-- deleteTransactionMutation onSuccess (Transactions.tsx). -/
def deleteTransactionOnSuccess : List Effect :=
  [Effect.invalidate "transactions",
   Effect.toastSuccess (Msg.translated "transactions.transactionDeleted")]

/-- deleteTransactionMutation onError (Transactions.tsx). -/
def deleteTransactionOnError (e : AxiosError) : List Effect :=
  [Effect.toastError (jsOrMsg (serverMessage e) (Msg.literal "Failed to delete transaction"))]

/-- importCSVMutation onSuccess (Transactions.tsx). -/
def importCSVOnSuccess : List Effect :=
  [Effect.invalidate "transactions",
   Effect.toastSuccess (Msg.translated "transactions.csvImported"),
   Effect.ui "setShowImportModal(false)"]

/-- importCSVMutation onError (Transactions.tsx). -/
def importCSVOnError (e : AxiosError) : List Effect :=
  [Effect.toastError (jsOrMsg (serverMessage e) (Msg.translated "transactions.csvImportError"))]

/-- createBudgetMutation onSuccess (Budgets page). -/
def createBudgetOnSuccess : List Effect :=
  [Effect.invalidate "budgets", Effect.invalidate "budget-status",
   Effect.toastSuccess (Msg.translated "budgets.budgetAdded"),
   Effect.ui "setShowAddForm(false)", Effect.ui "reset()"]

/-- createBudgetMutation onError (Budgets page). -/
def createBudgetOnError (e : AxiosError) : List Effect :=
  [Effect.toastError (jsOrMsg (serverMessage e) (Msg.literal "Failed to create budget"))]

/-- updateBudgetMutation onSuccess (Budgets page). -/
def updateBudgetOnSuccess : List Effect :=
  [Effect.invalidate "budgets", Effect.invalidate "budget-status",
   Effect.toastSuccess (Msg.translated "budgets.budgetUpdated"),
   Effect.ui "setEditingBudget(null)", Effect.ui "reset()"]

/-- updateBudgetMutation onError (Budgets page). -/
def updateBudgetOnError (e : AxiosError) : List Effect :=
  [Effect.toastError (jsOrMsg (serverMessage e) (Msg.literal "Failed to update budget"))]

/-- deleteBudgetMutation onSuccess (Budgets page). -/
def deleteBudgetOnSuccess : List Effect :=
  [Effect.invalidate "budgets", Effect.invalidate "budget-status",
   Effect.toastSuccess (Msg.translated "budgets.budgetDeleted")]

/-- deleteBudgetMutation onError (Budgets page). -/
def deleteBudgetOnError (e : AxiosError) : List Effect :=
  [Effect.toastError (jsOrMsg (serverMessage e) (Msg.literal "Failed to delete budget"))]

/-- createAlertMutation onSuccess (Settings page). -/
def createAlertOnSuccess : List Effect :=
  [Effect.invalidate "alert-configs",
   Effect.toastSuccess (Msg.literal "Alert configuration saved"),
   Effect.ui "resetAlert()"]

/-- createAlertMutation onError (Settings page): a fixed literal message,
ignoring the error object. -/
def createAlertOnError (e : AxiosError) : List Effect :=
  [Effect.toastError (Msg.literal "Failed to save alert configuration")]

/-- updateProfileMutation onSuccess (Settings page). -/
def updateProfileOnSuccess : List Effect :=
  [Effect.invalidate "current-user",
   Effect.toastSuccess (Msg.translated "settings.settingsSaved")]

/-- updateProfileMutation onError (Settings page): a fixed literal message,
ignoring the error object. -/
def updateProfileOnError (e : AxiosError) : List Effect :=
  [Effect.toastError (Msg.literal "Failed to update profile")]

/-- True for the success-toast effect. -/
def isToastSuccess : Effect → Bool
  | Effect.toastSuccess _ => true
  | _ => false

/-- True for a cache-invalidation effect. -/
def isInvalidate : Effect → Bool
  | Effect.invalidate _ => true
  | _ => false

/-- The effects a handler performs before its first success toast. -/
def beforeSuccessToast (effs : List Effect) : List Effect :=
  effs.takeWhile (fun e => !(isToastSuccess e))

/-- Every key of `keys` is invalidated before the first success toast, and
a success toast is indeed shown. -/
def invalidatedBeforeSuccessToast (keys : List String) (effs : List Effect) : Bool :=
  (effs.any isToastSuccess) &&
    keys.all (fun k => (beforeSuccessToast effs).any (fun e => e = Effect.invalidate k))

/-- No invalidation happens at or after the first success toast. -/
def invalidatesOnlyBeforeSuccessToast (effs : List Effect) : Bool :=
  (effs.dropWhile (fun e => !(isToastSuccess e))).all (fun e => !(isInvalidate e))

/-- Whether a handler performs any cache invalidation at all. -/
def hasInvalidate (effs : List Effect) : Bool :=
  effs.any isInvalidate

/-- The profile form data of the Settings page (SettingsFormData). -/
structure SettingsFormData where
  username : String
  email : String
  telegram_chat_id : Option String

deriving instance DecidableEq for SettingsFormData

/-- The mutation function of updateProfileMutation on the Settings page:
(data) => apiService.getCurrentUser() — it ignores the submitted form data
and issues the current-user read. -/
def updateProfileMutationFn (data : SettingsFormData) : RequestDescriptor :=
  getCurrentUser

/-! Query-cache call sites and a model of the cache. -/

/-- Cache key used by the Dashboard page useQuery for budget status. -/
def dashboardBudgetStatusKey : String := "budget-status"

/-- Cache key used by the Budgets page useQuery for budget status. -/
def budgetsPageBudgetStatusKey : String := "budget-status"

/-- Fetcher of the Dashboard budget-status query:
apiService.getBudgetStatus with period monthly. -/
def dashboardBudgetStatusFetch : RequestDescriptor :=
  getBudgetStatus [("period", "monthly")]

/-- Fetcher of the Budgets page budget-status query:
apiService.getBudgetStatus with period monthly. -/
def budgetsPageBudgetStatusFetch : RequestDescriptor :=
  getBudgetStatus [("period", "monthly")]

/-- Modelled from the spec: the Query Cache component (the react-query
library) is not among the repository sources under src/; only its call
sites are. Cache state per the spec: the set of keys with an in-flight
request, the stored values, and a count of network calls issued. -/
structure CacheState where
  inflight : List String
  values : Obj
  networkCalls : Nat

/-- Modelled from the spec: the empty cache at application start. -/
def emptyCache : CacheState := ⟨[], [], 0⟩

/-- Modelled from the spec: a page subscribing a keyed read. Identical keys
requested by multiple pages share one in-flight request, so a network call
is issued only when no request for the key is already in flight. -/
def subscribe (key : String) (st : CacheState) : CacheState :=
  if st.inflight.contains key then st
  else { st with inflight := key :: st.inflight, networkCalls := st.networkCalls + 1 }

/-- Modelled from the spec: completion of the shared in-flight request for a
key stores its value for all subscribers of that key. -/
def resolve (key : String) (v : String) (st : CacheState) : CacheState :=
  { st with inflight := st.inflight.erase key, values := setKey st.values key v }

/-- Modelled from the spec: what a subscriber of a key reads from the
cache. -/
def observe (key : String) (st : CacheState) : Option String :=
  objGet st.values key

/-! Concrete data used by witnesses and counterexamples. -/

/-- A browser state with a logged-in session and a language preference. -/
def stSample : BrowserState :=
  ⟨[("token", "abc"), ("user", "alice"), ("language", "en")], "/dashboard"⟩

/-- A request config for GET /transactions/ built from the default headers. -/
def cfgTransactions : AxiosConfig := ⟨"/transactions/", axiosCreateHeaders⟩

/-- An axios rejection with status 401 and no body message. -/
def err401 : AxiosError := ⟨some ⟨401, none⟩⟩

/-- An axios rejection with status 500 and no body message. -/
def err500 : AxiosError := ⟨some ⟨500, none⟩⟩

/-- An axios rejection with status 400 whose body carries the error
message boom. -/
def errBoom : AxiosError := ⟨some ⟨400, some "boom"⟩⟩

/-- An axios rejection with status 400 whose body carries a present but
empty error message. -/
def errEmptyMsg : AxiosError := ⟨some ⟨400, some ""⟩⟩

/-- A network script that rejects every request with err401. -/
def failNet401 : AxiosConfig → Except AxiosError HttpResponse :=
  fun cfg => Except.error err401

/-- A network script that rejects every request with err500. -/
def failNet500 : AxiosConfig → Except AxiosError HttpResponse :=
  fun cfg => Except.error err500

/-! Lemmas about the JS object operations. -/

theorem objGet_setKey_self (o : Obj) (k v : String) :
    objGet (setKey o k v) k = some v := by
  induction o with
  | nil => simp [setKey, objGet]
  | cons p rest ih =>
    by_cases h : p.1 = k
    · simp [setKey, h, objGet]
    · simp [setKey, h, objGet, ih]

theorem objGet_setKey_ne (o : Obj) (k v k' : String) (h : k' ≠ k) :
    objGet (setKey o k v) k' = objGet o k' := by
  induction o with
  | nil => simp [setKey, objGet, Ne.symm h]
  | cons p rest ih =>
    by_cases hp : p.1 = k
    · simp [setKey, hp, objGet, Ne.symm h]
    · simp [setKey, hp, objGet, ih]

theorem objGet_removeKey_self (o : Obj) (k : String) :
    objGet (removeKey o k) k = none := by
  induction o with
  | nil => simp [removeKey, objGet]
  | cons p rest ih =>
    by_cases h : p.1 = k
    · simp [removeKey, h, ih]
    · simp [removeKey, h, objGet, ih]

theorem objGet_removeKey_ne (o : Obj) (k k' : String) (h : k' ≠ k) :
    objGet (removeKey o k) k' = objGet o k' := by
  induction o with
  | nil => simp [removeKey]
  | cons p rest ih =>
    by_cases hp : p.1 = k
    · simp [removeKey, hp, objGet, ih, Ne.symm h]
    · simp [removeKey, hp, objGet, ih]

theorem spreadAfter_nil (base : Obj) : spreadAfter base [] = base := rfl

theorem spreadAfter_cons (base : Obj) (p : String × String) (ps : Obj) :
    spreadAfter base (p :: ps) = spreadAfter (setKey base p.1 p.2) ps := rfl

theorem objGet_spreadAfter_not_mem (base : Obj) (ps : Obj) (k : String)
    (h : k ∉ ps.map Prod.fst) :
    objGet (spreadAfter base ps) k = objGet base k := by
  induction ps generalizing base with
  | nil => rfl
  | cons p ps ih =>
    simp only [List.map_cons, List.mem_cons] at h
    push_neg at h
    rw [spreadAfter_cons, ih _ h.2, objGet_setKey_ne _ _ _ _ h.1]

theorem objGet_spreadAfter (base : Obj) (ps : Obj) (k : String)
    (hnd : (ps.map Prod.fst).Nodup) :
    objGet (spreadAfter base ps) k =
      match objGet ps k with
      | some v => some v
      | none => objGet base k := by
  induction ps generalizing base with
  | nil => simp [spreadAfter_nil, objGet]
  | cons p ps ih =>
    obtain ⟨a, b⟩ := p
    rw [List.map_cons, List.nodup_cons] at hnd
    rw [spreadAfter_cons]
    by_cases h : a = k
    · subst h
      rw [objGet_spreadAfter_not_mem _ _ _ hnd.1, objGet_setKey_self]
      simp [objGet]
    · rw [ih _ hnd.2]
      have hne : k ≠ a := fun hh => h hh.symm
      cases hv : objGet ps k with
      | some v => simp [objGet, h, hv]
      | none => simp [objGet, h, hv, objGet_setKey_ne _ _ _ _ hne]

/-! Lemmas about the response interceptor error handler. -/

theorem respErrorHandler_preserves_error (e : AxiosError) (st : BrowserState) :
    (respErrorHandler e st).2 = e := by
  unfold respErrorHandler
  cases e.response with
  | none => rfl
  | some r => by_cases h : r.status = 401 <;> simp [h]

theorem respErrorHandler_401_clears (st : BrowserState) (e : AxiosError)
    (h : Option.map HttpResponse.status e.response = some 401) :
    objGet (respErrorHandler e st).1.storage "token" = none ∧
    objGet (respErrorHandler e st).1.storage "user" = none ∧
    (respErrorHandler e st).1.location = "/login" := by
  cases he : e.response with
  | none => rw [he] at h; exact absurd h (by simp)
  | some r =>
    rw [he, Option.map_some'] at h
    have hs : r.status = 401 := Option.some.inj h
    have h1 : (respErrorHandler e st).1 =
        ⟨removeKey (removeKey st.storage "token") "user", "/login"⟩ := by
      simp [respErrorHandler, he, hs]
    rw [h1]
    refine ⟨?_, ?_, rfl⟩
    · rw [objGet_removeKey_ne _ _ _ (by decide)]
      exact objGet_removeKey_self _ _
    · exact objGet_removeKey_self _ _

/-! The claims. -/

/-- Claim C1: for every response with HTTP status 401, regardless of which
endpoint the request targeted, the response interceptor error handler
removes both the token and user entries from localStorage and forces
navigation to /login, so the Token Store is empty immediately after
handling. -/
theorem c1_forced_logout (st : BrowserState) (e : AxiosError)
    (h : Option.map HttpResponse.status e.response = some 401) :
    objGet (respErrorHandler e st).1.storage "token" = none ∧
    objGet (respErrorHandler e st).1.storage "user" = none ∧
    (respErrorHandler e st).1.location = "/login" :=
  respErrorHandler_401_clears st e h

/-- Witness for C1: a concrete 401 rejection against a logged-in browser
state clears both entries and redirects to /login. -/
theorem c1_witness :
    Option.map HttpResponse.status err401.response = some 401 ∧
    (objGet (respErrorHandler err401 stSample).1.storage "token" = none ∧
     objGet (respErrorHandler err401 stSample).1.storage "user" = none ∧
     (respErrorHandler err401 stSample).1.location = "/login") :=
  ⟨rfl, c1_forced_logout stSample err401 rfl⟩

/-- Counterexample to C2 as stated: when localStorage holds the entry token
with the empty-string value, a token entry is present at dispatch time, yet
the request interceptor attaches no Authorization header, because the
source guards the assignment with the JS truthiness test if (token), which
is false for the empty string. -/
theorem c2_counterexample :
    objGet [("token", "")] "token" = some "" ∧
    requestInterceptor [("token", "")] cfgTransactions = cfgTransactions ∧
    objGet (requestInterceptor [("token", "")] cfgTransactions).headers "Authorization" = none := by
  refine ⟨rfl, rfl, by decide⟩

/-- Claim C2 (amended): for every outgoing request, if a nonempty token is
present in localStorage at dispatch time the request interceptor sets the
Authorization header to Token followed by that token; if the token entry is
absent or holds the empty string, the Authorization header is left exactly
as the config carried it — and the default instance headers carry no
Authorization entry, so such a request is sent unauthenticated. -/
theorem c2_auth_header (storage : Obj) (cfg : AxiosConfig) :
    objGet (requestInterceptor storage cfg).headers "Authorization" =
      (match objGet storage "token" with
       | some tok =>
           if tok = "" then objGet cfg.headers "Authorization"
           else some ("Token " ++ tok)
       | none => objGet cfg.headers "Authorization") ∧
    objGet axiosCreateHeaders "Authorization" = none := by
  constructor
  · cases ht : objGet storage "token" with
    | none => simp [requestInterceptor, ht]
    | some tok =>
      by_cases h0 : tok = ""
      · simp [requestInterceptor, ht, h0]
      · simp [requestInterceptor, ht, h0, objGet_setKey_self]
  · decide

/-- Claim C3: for every successful mutation configured with cache keys K
(create, update and delete of transactions and budgets, CSV import, and
alert-config creation), every key in K is invalidated before the success
toast is shown, and no invalidation happens after the toast. -/
theorem c3_invalidate_before_toast :
    (invalidatedBeforeSuccessToast ["transactions"] createTransactionOnSuccess = true ∧
     invalidatesOnlyBeforeSuccessToast createTransactionOnSuccess = true) ∧
    (invalidatedBeforeSuccessToast ["transactions"] updateTransactionOnSuccess = true ∧
     invalidatesOnlyBeforeSuccessToast updateTransactionOnSuccess = true) ∧
    (invalidatedBeforeSuccessToast ["transactions"] deleteTransactionOnSuccess = true ∧
     invalidatesOnlyBeforeSuccessToast deleteTransactionOnSuccess = true) ∧
    (invalidatedBeforeSuccessToast ["transactions"] importCSVOnSuccess = true ∧
     invalidatesOnlyBeforeSuccessToast importCSVOnSuccess = true) ∧
    (invalidatedBeforeSuccessToast ["budgets", "budget-status"] createBudgetOnSuccess = true ∧
     invalidatesOnlyBeforeSuccessToast createBudgetOnSuccess = true) ∧
    (invalidatedBeforeSuccessToast ["budgets", "budget-status"] updateBudgetOnSuccess = true ∧
     invalidatesOnlyBeforeSuccessToast updateBudgetOnSuccess = true) ∧
    (invalidatedBeforeSuccessToast ["budgets", "budget-status"] deleteBudgetOnSuccess = true ∧
     invalidatesOnlyBeforeSuccessToast deleteBudgetOnSuccess = true) ∧
    (invalidatedBeforeSuccessToast ["alert-configs"] createAlertOnSuccess = true ∧
     invalidatesOnlyBeforeSuccessToast createAlertOnSuccess = true) := by
  decide

/-- Counterexample to C4 as stated, at two concrete inputs. A failed
alert-config creation whose response body carries the error message boom
still shows the fixed generic message: the Settings page onError handlers
ignore the server-provided message entirely. And a failed transaction
creation whose response body carries a present but empty error message
shows the generic fallback rather than the provided message: the JS
fallback expression message-or-fallback treats an empty string as absent. -/
theorem c4_counterexample :
    serverMessage errBoom = some "boom" ∧
    createAlertOnError errBoom =
      [Effect.toastError (Msg.literal "Failed to save alert configuration")] ∧
    Effect.toastError (Msg.literal "boom") ∉ createAlertOnError errBoom ∧
    hasInvalidate (createAlertOnError errBoom) = false ∧
    serverMessage errEmptyMsg = some "" ∧
    createTransactionOnError errEmptyMsg =
      [Effect.toastError (Msg.literal "Failed to create transaction")] ∧
    Effect.toastError (Msg.literal "") ∉ createTransactionOnError errEmptyMsg := by
  decide

/-- Claim C4 (amended): for every failed mutation, no cache key is
invalidated. The Transactions and Budgets page mutations show the
server-provided error message when a nonempty one is present in the
response body and a generic fallback otherwise — both when the message is
absent and when it is present but empty; the Settings page mutations
(profile update, alert-config creation) always show a fixed generic
message, ignoring any server-provided one. -/
theorem c4_amended_on_error (e : AxiosError) :
    (hasInvalidate (createTransactionOnError e) = false ∧
     hasInvalidate (updateTransactionOnError e) = false ∧
     hasInvalidate (deleteTransactionOnError e) = false ∧
     hasInvalidate (importCSVOnError e) = false ∧
     hasInvalidate (createBudgetOnError e) = false ∧
     hasInvalidate (updateBudgetOnError e) = false ∧
     hasInvalidate (deleteBudgetOnError e) = false ∧
     hasInvalidate (createAlertOnError e) = false ∧
     hasInvalidate (updateProfileOnError e) = false) ∧
    (∀ s : String, serverMessage e = some s → s ≠ "" →
      createTransactionOnError e = [Effect.toastError (Msg.literal s)] ∧
      updateTransactionOnError e = [Effect.toastError (Msg.literal s)] ∧
      deleteTransactionOnError e = [Effect.toastError (Msg.literal s)] ∧
      importCSVOnError e = [Effect.toastError (Msg.literal s)] ∧
      createBudgetOnError e = [Effect.toastError (Msg.literal s)] ∧
      updateBudgetOnError e = [Effect.toastError (Msg.literal s)] ∧
      deleteBudgetOnError e = [Effect.toastError (Msg.literal s)]) ∧
    (serverMessage e = some "" →
      createTransactionOnError e =
        [Effect.toastError (Msg.literal "Failed to create transaction")] ∧
      updateTransactionOnError e =
        [Effect.toastError (Msg.literal "Failed to update transaction")] ∧
      deleteTransactionOnError e =
        [Effect.toastError (Msg.literal "Failed to delete transaction")] ∧
      importCSVOnError e =
        [Effect.toastError (Msg.translated "transactions.csvImportError")] ∧
      createBudgetOnError e =
        [Effect.toastError (Msg.literal "Failed to create budget")] ∧
      updateBudgetOnError e =
        [Effect.toastError (Msg.literal "Failed to update budget")] ∧
      deleteBudgetOnError e =
        [Effect.toastError (Msg.literal "Failed to delete budget")]) ∧
    (serverMessage e = none →
      createTransactionOnError e =
        [Effect.toastError (Msg.literal "Failed to create transaction")] ∧
      updateTransactionOnError e =
        [Effect.toastError (Msg.literal "Failed to update transaction")] ∧
      deleteTransactionOnError e =
        [Effect.toastError (Msg.literal "Failed to delete transaction")] ∧
      importCSVOnError e =
        [Effect.toastError (Msg.translated "transactions.csvImportError")] ∧
      createBudgetOnError e =
        [Effect.toastError (Msg.literal "Failed to create budget")] ∧
      updateBudgetOnError e =
        [Effect.toastError (Msg.literal "Failed to update budget")] ∧
      deleteBudgetOnError e =
        [Effect.toastError (Msg.literal "Failed to delete budget")]) ∧
    createAlertOnError e =
      [Effect.toastError (Msg.literal "Failed to save alert configuration")] ∧
    updateProfileOnError e =
      [Effect.toastError (Msg.literal "Failed to update profile")] := by
  refine ⟨⟨rfl, rfl, rfl, rfl, rfl, rfl, rfl, rfl, rfl⟩, ?_, ?_, ?_, rfl, rfl⟩
  · intro s hs hne
    simp [createTransactionOnError, updateTransactionOnError, deleteTransactionOnError,
      importCSVOnError, createBudgetOnError, updateBudgetOnError, deleteBudgetOnError,
      jsOrMsg, hs, hne]
  · intro hs
    simp [createTransactionOnError, updateTransactionOnError, deleteTransactionOnError,
      importCSVOnError, createBudgetOnError, updateBudgetOnError, deleteBudgetOnError,
      jsOrMsg, hs]
  · intro hn
    simp [createTransactionOnError, updateTransactionOnError, deleteTransactionOnError,
      importCSVOnError, createBudgetOnError, updateBudgetOnError, deleteBudgetOnError,
      jsOrMsg, hn]

/-- Witness for the amended C4: with a nonempty server message boom the
Transactions create handler shows boom while the Settings profile handler
shows its fixed message, and with a present but empty server message the
Budgets create handler shows its generic fallback. -/
theorem c4_witness :
    serverMessage errBoom = some "boom" ∧
    createTransactionOnError errBoom = [Effect.toastError (Msg.literal "boom")] ∧
    updateProfileOnError errBoom =
      [Effect.toastError (Msg.literal "Failed to update profile")] ∧
    serverMessage errEmptyMsg = some "" ∧
    createBudgetOnError errEmptyMsg =
      [Effect.toastError (Msg.literal "Failed to create budget")] := by
  have h := c4_amended_on_error errBoom
  have h0 := c4_amended_on_error errEmptyMsg
  exact ⟨rfl, (h.2.1 "boom" rfl (by decide)).1, h.2.2.2.2.2, rfl,
    (h0.2.2.1 rfl).2.2.2.2.1⟩

/-- Claim C5: the Settings page profile-update mutation, for any submitted
profile form data, issues the current-user read (GET /users/me/) rather
than a profile-update write; the submitted form data is not sent. -/
theorem c5_profile_update_is_read (data : SettingsFormData) :
    updateProfileMutationFn data = getCurrentUser ∧
    getCurrentUser.method = Method.get ∧
    getCurrentUser.url = "/users/me/" ∧
    getCurrentUser.body = Body.empty :=
  ⟨rfl, rfl, rfl, rfl⟩

/-- Claim C6: for every request whose response has a non-2xx status other
than 401, the client performs exactly one network attempt and surfaces the
failure to the caller unchanged as the original rejection, with no change
to the browser state. -/
theorem c6_single_attempt (net : AxiosConfig → Except AxiosError HttpResponse)
    (cfg : AxiosConfig) (st : BrowserState) (e : AxiosError) (r : HttpResponse)
    (h1 : net (requestInterceptor st.storage cfg) = Except.error e)
    (h2 : e.response = some r)
    (h3 : ¬(200 ≤ r.status ∧ r.status < 300))
    (h4 : r.status ≠ 401) :
    send net cfg st = ⟨st, Except.error e, 1⟩ := by
  simp [send, h1, respErrorHandler, h2, h4]

/-- Witness for C6: a network that rejects with status 500 yields the
original error, an unchanged browser state and one attempt. -/
theorem c6_witness :
    failNet500 (requestInterceptor stSample.storage cfgTransactions) = Except.error err500 ∧
    err500.response = some ⟨500, none⟩ ∧
    send failNet500 cfgTransactions stSample = ⟨stSample, Except.error err500, 1⟩ :=
  ⟨rfl, rfl,
    c6_single_attempt failNet500 cfgTransactions stSample err500 ⟨500, none⟩
      rfl rfl (by decide) (by decide)⟩

/-- Claim C7: the CSV upload request carries the multipart content type in
place of the default JSON one, and the chart-export request is issued with
the explicit binary (blob) response expectation. -/
theorem c7_multipart_and_blob (file t : String) (ps : Obj) :
    objGet (effectiveHeaders (importTransactionsCSV file)) "Content-Type" =
      some "multipart/form-data" ∧
    axiosCreateHeaders = [("Content-Type", "application/json")] ∧
    (importTransactionsCSV file).body = Body.formData [("file", file)] ∧
    (downloadChart t ps).responseType = ResponseType.blob :=
  ⟨rfl, rfl, rfl, rfl⟩

/-- Claim C8: the Dashboard and Budgets pages subscribe the same
budget-status cache key with the same fetcher, and in the cache model two
concurrent reads for that key issue exactly one network call, after which
both subscribers observe the same resolved value. -/
theorem c8_dedup_same_key (v : String) :
    dashboardBudgetStatusKey = budgetsPageBudgetStatusKey ∧
    dashboardBudgetStatusFetch = budgetsPageBudgetStatusFetch ∧
    (subscribe budgetsPageBudgetStatusKey
      (subscribe dashboardBudgetStatusKey emptyCache)).networkCalls = 1 ∧
    observe dashboardBudgetStatusKey
      (resolve dashboardBudgetStatusKey v
        (subscribe budgetsPageBudgetStatusKey
          (subscribe dashboardBudgetStatusKey emptyCache))) = some v ∧
    observe budgetsPageBudgetStatusKey
      (resolve dashboardBudgetStatusKey v
        (subscribe budgetsPageBudgetStatusKey
          (subscribe dashboardBudgetStatusKey emptyCache))) = some v :=
  ⟨rfl, rfl, rfl, rfl, rfl⟩

/-- Claim C9: for every response with status 401, after the forced-logout
side effects the response interceptor still rejects with the original
error, so the caller observes the failure: the 401 is recovered globally
but never swallowed. -/
theorem c9_error_propagated (net : AxiosConfig → Except AxiosError HttpResponse)
    (cfg : AxiosConfig) (st : BrowserState) (e : AxiosError)
    (h1 : net (requestInterceptor st.storage cfg) = Except.error e)
    (h2 : Option.map HttpResponse.status e.response = some 401) :
    (send net cfg st).result = Except.error e ∧
    objGet (send net cfg st).state.storage "token" = none ∧
    objGet (send net cfg st).state.storage "user" = none := by
  have hc := respErrorHandler_401_clears st e h2
  have hs : send net cfg st =
      ⟨(respErrorHandler e st).1, Except.error (respErrorHandler e st).2, 1⟩ := by
    simp [send, h1]
  rw [respErrorHandler_preserves_error] at hs
  rw [hs]
  exact ⟨rfl, hc.1, hc.2.1⟩

/-- Witness for C9: a network that rejects every request with a concrete
401 error still settles the call with that very error, alongside the
cleared session entries. -/
theorem c9_witness :
    failNet401 (requestInterceptor stSample.storage cfgTransactions) = Except.error err401 ∧
    Option.map HttpResponse.status err401.response = some 401 ∧
    ((send failNet401 cfgTransactions stSample).result = Except.error err401 ∧
     objGet (send failNet401 cfgTransactions stSample).state.storage "token" = none ∧
     objGet (send failNet401 cfgTransactions stSample).state.storage "user" = none) :=
  ⟨rfl, rfl, c9_error_propagated failNet401 cfgTransactions stSample err401 rfl rfl⟩

/-- Claim C10: in downloadChart, the query parameters are the object
literal spreading the caller params after the explicit type property, so a
type key inside params overrides the explicit argument, and the explicit
argument is used when params carries no type key. -/
theorem c10_type_override (t : String) (ps : Obj) (hnd : (ps.map Prod.fst).Nodup) :
    objGet (downloadChart t ps).params "type" = some ((objGet ps "type").getD t) := by
  have h := objGet_spreadAfter [("type", t)] ps "type" hnd
  have hp : (downloadChart t ps).params = spreadAfter [("type", t)] ps := rfl
  rw [hp, h]
  cases hv : objGet ps "type" with
  | some v => rfl
  | none => rfl

/-- Witness for C10: with params carrying type bar, the outgoing request
uses bar although the explicit argument was pie. -/
theorem c10_witness :
    (([("type", "bar"), ("period", "monthly")] : Obj).map Prod.fst).Nodup ∧
    objGet (downloadChart "pie" [("type", "bar"), ("period", "monthly")]).params "type" =
      some "bar" := by
  refine ⟨by decide, ?_⟩
  exact (c10_type_override "pie" [("type", "bar"), ("period", "monthly")] (by decide)).trans
    (by decide)

end Pennywise
